import Mathlib

/-!
Verification of `prom_posture.py`: a Prometheus collector that fetches a
Sysdig posture document, filters policies by recency of their requirement
history, and emits eight labeled gauge families; plus a retrying HTTP fetch
with exponential backoff and YAML-config validation.

The embedding is shallow: Python dict/JSON values become Lean structures and
association lists, exceptions become `Except`, the retry loop becomes a
fuel-bounded recursion (the fuel is exactly the loop bound
`retries <= max_retries`), and the side effects that the claims mention
(warning logs, sleeps) are recorded in an explicit event trace.
-/

deriving instance DecidableEq for Except

namespace PromPosture

/-- A Python scalar value as produced by `yaml.safe_load` for the config
entries the program reads.  `truthy` mirrors Python truthiness, which is what
`validate_config` tests with `if not config[section][key]`. -/
inductive PyValue where
  | str (s : String)
  | int (n : Int)
  | bool (b : Bool)
  | none
deriving DecidableEq, Repr

/-- Python truthiness for the scalars above: empty string, 0, False and None
are falsy. -/
def PyValue.truthy : PyValue → Bool
  | .str s => !s.isEmpty
  | .int n => n != 0
  | .bool b => b
  | .none => false

/-- A Python dict (string keys) as an association list; lookup is
first-match, which coincides with dict lookup since dict keys are unique. -/
def lookup {α : Type} (l : List (String × α)) (k : String) : Option α :=
  (l.find? (fun kv => kv.1 == k)).map (fun kv => kv.2)

/-- The YAML config: a dict of sections, each a dict of scalar values. -/
abbrev Config := List (String × List (String × PyValue))

/-- `required_keys` dict from `validate_config` (src lines 51-54). -/
def required_keys : List (String × List String) :=
  [("settings", ["logLevel", "httpPort"]),
   ("config", ["apiToken", "regionURL", "postureAPIEndpoint", "noDataThresholdHours"])]

/-- Inner loop of `validate_config` (src lines 60-64): for each key of a
section, a missing key or a falsy value raises `ValueError` with the
corresponding message. -/
def validateKeys (entries : List (String × PyValue)) (sect : String) :
    List String → Except String Unit
  | [] => Except.ok ()
  | k :: ks =>
    match lookup entries k with
    | Option.none => Except.error ("Missing key in " ++ sect ++ ": " ++ k)
    | Option.some v =>
      if v.truthy then validateKeys entries sect ks
      else Except.error ("Value for " ++ k ++ " in " ++ sect ++ " is not provided or empty.")

/-- Outer loop of `validate_config` (src lines 56-64): a missing section
raises before its keys are examined. -/
def validateSections (c : Config) : List (String × List String) → Except String Unit
  | [] => Except.ok ()
  | (sect, keys) :: rest =>
    match lookup c sect with
    | Option.none => Except.error ("Missing section in config: " ++ sect)
    | Option.some entries =>
      match validateKeys entries sect keys with
      | Except.ok () => validateSections c rest
      | Except.error e => Except.error e

/-- `validate_config` (src lines 42-64). -/
def validate_config (c : Config) : Except String Unit :=
  validateSections c required_keys

/-- The six required dotted keys in the order `validate_config` checks them. -/
def requiredPairs : List (String × String) :=
  [("settings", "logLevel"), ("settings", "httpPort"),
   ("config", "apiToken"), ("config", "regionURL"),
   ("config", "postureAPIEndpoint"), ("config", "noDataThresholdHours")]

/-- Within a present section, a key offends when it is absent or its value
is Python-falsy. -/
def entryOffends (entries : List (String × PyValue)) (k : String) : Bool :=
  match lookup entries k with
  | Option.none => true
  | Option.some v => !v.truthy

/-- The message `validateKeys` produces for an offending key of a present
section; it names the key. -/
def entryMessage (entries : List (String × PyValue)) (sect k : String) : String :=
  match lookup entries k with
  | Option.none => "Missing key in " ++ sect ++ ": " ++ k
  | Option.some _ => "Value for " ++ k ++ " in " ++ sect ++ " is not provided or empty."

/-- A required key `sect.k` offends when its section is absent, the key is
absent, or its value is Python-falsy. -/
def keyOffends (c : Config) (sect k : String) : Bool :=
  match lookup c sect with
  | Option.none => true
  | Option.some entries => entryOffends entries k

/-- The `ValueError` message `validate_config` produces for the offending key
`sect.k`: it names the section when the whole section is absent, and names
the key otherwise. -/
def offenderMessage (c : Config) (sect k : String) : String :=
  match lookup c sect with
  | Option.none => "Missing section in config: " ++ sect
  | Option.some entries => entryMessage entries sect k

/-! ## Posture document model (spec section 3; JSON payload walked in `collect`) -/

/-- One entry of `requirementsHistory`.  `date` is a string of epoch seconds;
scores are modeled as integers (the claims only involve integral values). -/
structure Requirement where
  date : String
  requirementPassingScore : Int
  failedRequirements : Int
  evaluatedResources : Int
deriving DecidableEq, Repr

/-- `resourceViolationSummary` of a policy. -/
structure ViolationSummary where
  highSeverity : Int
  mediumSeverity : Int
  lowSeverity : Int
deriving DecidableEq, Repr

/-- One policy of a zone. -/
structure Policy where
  name : String
  failedControls : Int
  resourcePassingScore : Int
  resourceViolationSummary : ViolationSummary
  requirementsHistory : List Requirement
deriving DecidableEq, Repr

/-- One zone of the document. -/
structure Zone where
  zoneName : String
  policies : List Policy
deriving DecidableEq, Repr

/-- The top-level payload: `json_data['data']` is the zone list. -/
structure PostureDocument where
  data : List Zone
deriving DecidableEq, Repr

/-- The Python exceptions the collection path can raise, plus the synthetic
JSON-decode failure of `.json()` on a non-JSON body. -/
inductive CollectError where
  | emptyHistoryMax
  | invalidDateLiteral (s : String)
  | noneFieldAccess (field : String)
  | unboundLocalError (name : String)
  | jsonDecodeError (body : String)
deriving DecidableEq, Repr

/-- The value of a decimal digit character, `Option.none` otherwise. -/
def digitVal? (c : Char) : Option Nat :=
  if c.isDigit then Option.some (c.toNat - '0'.toNat) else Option.none

/-- Reads a (possibly empty remainder of a) digit string left to right with
an accumulator; fails on the first non-digit. -/
def decNatAux : List Char → Nat → Option Nat
  | [], acc => Option.some acc
  | c :: cs, acc =>
    match digitVal? c with
    | Option.some d => decNatAux cs (acc * 10 + d)
    | Option.none => Option.none

/-- Python `int` on a decimal string: an optional minus sign followed by at
least one digit; leading zeros are accepted (`int("0100") = 100`) and
anything else raises `ValueError`.  (Python additionally tolerates
surrounding whitespace, a plus sign and underscores; the date strings of
this payload are plain decimals, for which the two agree.) -/
def pyInt? (s : String) : Option Int :=
  match s.data with
  | [] => Option.none
  | '-' :: c :: cs => (decNatAux (c :: cs) 0).map (fun n => -(n : Int))
  | c :: cs => (decNatAux (c :: cs) 0).map (fun n => (n : Int))

/-- The list comprehension `[int(rh['date']) for rh in requirements_history]`
(src line 81); an unparsable string raises `ValueError` before `max` runs. -/
def parseDates : List Requirement → Except CollectError (List Int)
  | [] => Except.ok []
  | rh :: rest =>
    match pyInt? rh.date with
    | Option.some d => (parseDates rest).map (fun ds => d :: ds)
    | Option.none => Except.error (CollectError.invalidDateLiteral rh.date)

/-- Python `max` on a list of ints: raises `ValueError` on the empty list. -/
def listMax : List Int → Except CollectError Int
  | [] => Except.error CollectError.emptyHistoryMax
  | d :: ds => Except.ok (ds.foldl max d)

/-- `Collector.get_youngest_date` (src lines 73-81):
`max([int(rh['date']) for rh in requirements_history])`. -/
def get_youngest_date (rhs : List Requirement) : Except CollectError Int :=
  match parseDates rhs with
  | Except.error e => Except.error e
  | Except.ok ds => listMax ds

/-- The linear scan of src lines 163-167: the first history entry whose
`date` string equals `str(youngest_date)`, else `None`. -/
def findYoungestData (rhs : List Requirement) (youngest_date : Int) : Option Requirement :=
  rhs.find? (fun r => r.date == toString youngest_date)

/-! ## Gauge families -/

/-- One sample of a gauge family: the label values (in the order of the
family's label names) and the value. -/
structure Sample where
  labelValues : List String
  value : Int
deriving DecidableEq, Repr

/-- `GaugeMetricFamily` from `prometheus_client.core`: a name, a help string,
label names, and the samples added so far (in insertion order). -/
structure GaugeMetricFamily where
  name : String
  documentation : String
  labels : List String
  samples : List Sample
deriving DecidableEq, Repr

/-- `add_metric` appends one sample. -/
def GaugeMetricFamily.add_metric (g : GaugeMetricFamily) (labelValues : List String)
    (value : Int) : GaugeMetricFamily :=
  { g with samples := g.samples ++ [{ labelValues := labelValues, value := value }] }

/-- The eight gauge families set up at the start of every `collect` call
(src lines 107-153). -/
structure Gauges where
  g_passing_requirements : GaugeMetricFamily
  g_failed_requirements : GaugeMetricFamily
  g_evaluated_resources : GaugeMetricFamily
  g_failed_controls : GaugeMetricFamily
  g_passing_resources : GaugeMetricFamily
  g_high_severity : GaugeMetricFamily
  g_medium_severity : GaugeMetricFamily
  g_low_severity : GaugeMetricFamily
deriving DecidableEq, Repr

/-- The freshly constructed families, with the names, help strings and label
names of src lines 107-153. -/
def initGauges : Gauges :=
  { g_passing_requirements :=
      { name := "sysdig_posture_passing_requirements",
        documentation := "Number of passing requirements",
        labels := ["zone", "policy"], samples := [] },
    g_failed_requirements :=
      { name := "sysdig_posture_failed_requirements",
        documentation := "Number of failed requirements",
        labels := ["zone", "policy"], samples := [] },
    g_evaluated_resources :=
      { name := "sysdig_posture_evaluated_resources",
        documentation := "Number of evaluated resources",
        labels := ["zone", "policy"], samples := [] },
    g_failed_controls :=
      { name := "sysdig_posture_failed_controls",
        documentation := "Number of failed controls",
        labels := ["zone", "policy"], samples := [] },
    g_passing_resources :=
      { name := "sysdig_posture_passing_resources",
        documentation := "Number of passing resources",
        labels := ["zone", "policy"], samples := [] },
    g_high_severity :=
      { name := "sysdig_posture_high_severity_violations_resource",
        documentation := "Number of high severity resource violations",
        labels := ["zone", "policy"], samples := [] },
    g_medium_severity :=
      { name := "sysdig_posture_medium_severity_violations_resource",
        documentation := "Number of medium severity resource violations",
        labels := ["zone", "policy"], samples := [] },
    g_low_severity :=
      { name := "sysdig_posture_low_severity_violations_resource",
        documentation := "Number of low severity resource violations",
        labels := ["zone", "policy"], samples := [] } }

/-- `Collector.__init__` (src lines 68-71): the threshold in seconds is
`hours_threshold * 60 * 60`. -/
def Collector.timeframe_seconds (hours_threshold : Int) : Int :=
  hours_threshold * 60 * 60

/-- The eight `add_metric` calls of the fresh branch (src lines 170-206), in
source order, all with label values `[zoneName, policyName]`. -/
def addAllMetrics (gs : Gauges) (labelValues : List String)
    (v₁ v₂ v₃ v₄ v₅ v₆ v₇ v₈ : Int) : Gauges :=
  { g_passing_requirements := gs.g_passing_requirements.add_metric labelValues v₁,
    g_failed_requirements := gs.g_failed_requirements.add_metric labelValues v₂,
    g_evaluated_resources := gs.g_evaluated_resources.add_metric labelValues v₃,
    g_failed_controls := gs.g_failed_controls.add_metric labelValues v₄,
    g_passing_resources := gs.g_passing_resources.add_metric labelValues v₅,
    g_high_severity := gs.g_high_severity.add_metric labelValues v₆,
    g_medium_severity := gs.g_medium_severity.add_metric labelValues v₇,
    g_low_severity := gs.g_low_severity.add_metric labelValues v₈ }

/-- The body of the inner policy loop (src lines 158-206).  The youngest date
is computed first (its exceptions abort the whole collection); the linear
scan may leave `youngest_data = None`; the freshness test
`current_timestamp - youngest_date <= timeframe_seconds` gates the eight
`add_metric` calls; in the fresh branch, subscripting a `None`
`youngest_data` raises `TypeError` at the first field access,
`requirementPassingScore`. -/
def processPolicy (current_timestamp timeframe_seconds : Int) (zoneName : String)
    (p : Policy) (gs : Gauges) : Except CollectError Gauges :=
  match get_youngest_date p.requirementsHistory with
  | Except.error e => Except.error e
  | Except.ok youngest_date =>
    match findYoungestData p.requirementsHistory youngest_date with
    | Option.none =>
      if current_timestamp - youngest_date ≤ timeframe_seconds then
        Except.error (CollectError.noneFieldAccess "requirementPassingScore")
      else
        Except.ok gs
    | Option.some youngest_data =>
      if current_timestamp - youngest_date ≤ timeframe_seconds then
        Except.ok (addAllMetrics gs [zoneName, p.name]
          youngest_data.requirementPassingScore
          youngest_data.failedRequirements
          youngest_data.evaluatedResources
          p.failedControls
          p.resourcePassingScore
          p.resourceViolationSummary.highSeverity
          p.resourceViolationSummary.mediumSeverity
          p.resourceViolationSummary.lowSeverity)
      else
        Except.ok gs

/-- The inner `for policy_data in zone_data['policies']` loop. -/
def processPolicies (current_timestamp timeframe_seconds : Int) (zoneName : String) :
    List Policy → Gauges → Except CollectError Gauges
  | [], gs => Except.ok gs
  | p :: ps, gs =>
    match processPolicy current_timestamp timeframe_seconds zoneName p gs with
    | Except.error e => Except.error e
    | Except.ok gs₁ => processPolicies current_timestamp timeframe_seconds zoneName ps gs₁

/-- The outer `for zone_data in json_data['data']` loop. -/
def processZones (current_timestamp timeframe_seconds : Int) :
    List Zone → Gauges → Except CollectError Gauges
  | [], gs => Except.ok gs
  | z :: zs, gs =>
    match processPolicies current_timestamp timeframe_seconds z.zoneName z.policies gs with
    | Except.error e => Except.error e
    | Except.ok gs₁ => processZones current_timestamp timeframe_seconds zs gs₁

/-- The projection part of `Collector.collect` (src lines 105-216): walk the
zone list starting from freshly constructed gauges and yield the eight
families in source order. -/
def collectFromData (current_timestamp timeframe_seconds : Int) (zones : List Zone) :
    Except CollectError (List GaugeMetricFamily) :=
  match processZones current_timestamp timeframe_seconds zones initGauges with
  | Except.error e => Except.error e
  | Except.ok gs =>
    Except.ok [gs.g_passing_requirements, gs.g_failed_requirements,
      gs.g_evaluated_resources, gs.g_failed_controls, gs.g_passing_resources,
      gs.g_high_severity, gs.g_medium_severity, gs.g_low_severity]

/-! ## Retrying HTTP fetch (`sysdig_request`, src lines 219-244) -/

/-- The observable pieces of a `requests.Response` the program uses. -/
structure HttpResponse where
  status_code : Int
  content : String
deriving DecidableEq, Repr

/-- The logging and sleeping side effects of one failed attempt of
`sysdig_request`, and of the terminal path (src lines 234-240):
`warnErrorRetrying d` is the line `Error ... Retrying in d seconds`,
`warnRetrySleeping r d` is the line `Retry r, Sleeping for d seconds`,
`sleep d` is `time.sleep(delay)`, `errorHeader` is the dashed ERROR banner
and `errorFailedAfter m` the `Failed to fetch data ... after m retries`
line. -/
inductive LogEvent where
  | warnErrorRetrying (delay : Nat)
  | warnRetrySleeping (retries : Nat) (delay : Nat)
  | sleep (delay : Nat)
  | errorHeader
  | errorFailedAfter (max_retries : Nat)
deriving DecidableEq, Repr

/-- Outcome of one call to `sysdig_request`: the log/sleep trace, the number
of request attempts actually issued, and either the returned response or the
Python exception that escaped the function. -/
structure RequestTrace where
  log : List LogEvent
  attempts : Nat
  result : Except CollectError HttpResponse
deriving Repr

/-- The `while retries <= max_retries` loop of `sysdig_request`
(src lines 228-244).  `env n` is the outcome of attempt `n`
(`Except.error msg` models any `requests.exceptions.RequestException`,
including the `raise_for_status` ones).  `remaining` is the number of loop
iterations still allowed, `max_retries + 1 - retries`; `attempts` counts the
requests issued so far, which is `retries` when starting from 0.  When the
loop exhausts, the code logs the two error lines and then evaluates the
f-string `f"Error making request to {url}: {e}"`: the `except ... as e`
clause has unbound `e` at the end of each handler, so this raises
`UnboundLocalError` — the synthetic 503 assignment on src lines 242-244 is
unreachable whenever at least one attempt was made. -/
def sysdig_request_loop (env : Nat → Except String HttpResponse)
    (base_delay max_delay max_retries : Nat) :
    Nat → Nat → List LogEvent → RequestTrace
  | retries, 0, log =>
    { log := log ++ [LogEvent.errorHeader, LogEvent.errorFailedAfter max_retries],
      attempts := retries,
      result := Except.error (CollectError.unboundLocalError "e") }
  | retries, remaining + 1, log =>
    match env retries with
    | Except.ok response =>
      { log := log, attempts := retries + 1, result := Except.ok response }
    | Except.error _ =>
      sysdig_request_loop env base_delay max_delay max_retries (retries + 1) remaining
        (log ++ [LogEvent.warnErrorRetrying (min (base_delay * 2 ^ retries) max_delay),
                 LogEvent.warnRetrySleeping retries (min (base_delay * 2 ^ retries) max_delay),
                 LogEvent.sleep (min (base_delay * 2 ^ retries) max_delay)])

/-- `sysdig_request` (src lines 219-244), starting from `retries = 0` with
the loop bound `retries <= max_retries`, i.e. at most `max_retries + 1`
iterations. -/
def sysdig_request (env : Nat → Except String HttpResponse)
    (max_retries base_delay max_delay : Nat) : RequestTrace :=
  sysdig_request_loop env base_delay max_delay max_retries 0 (max_retries + 1) []

/-- The fetch-and-parse head of `Collector.collect` (src lines 96-104)
followed by the projection: `sysdig_request(...).json()` with the default
retry parameters `max_retries=5, base_delay=5, max_delay=60`, then the walk
over `json_data['data']`.  `decode` stands for the external JSON decoder;
it returns `Option.none` on a non-JSON body, in which case `.json()` raises. -/
def collect (env : Nat → Except String HttpResponse)
    (decode : String → Option PostureDocument)
    (current_timestamp timeframe_seconds : Int) :
    Except CollectError (List GaugeMetricFamily) :=
  match (sysdig_request env 5 5 60).result with
  | Except.error e => Except.error e
  | Except.ok response =>
    match decode response.content with
    | Option.none => Except.error (CollectError.jsonDecodeError response.content)
    | Option.some doc => collectFromData current_timestamp timeframe_seconds doc.data

/-! ## Concrete fixtures -/

/-- The policy of spec section 8 scenario 7: history entries dated "100" and
"200", with `requirementPassingScore 85, failedRequirements 3,
evaluatedResources 50` on the "200" entry. -/
def cisPolicy : Policy :=
  { name := "CIS-Benchmark", failedControls := 2, resourcePassingScore := 90,
    resourceViolationSummary := { highSeverity := 1, mediumSeverity := 2, lowSeverity := 3 },
    requirementsHistory :=
      [{ date := "100", requirementPassingScore := 70, failedRequirements := 5,
         evaluatedResources := 40 },
       { date := "200", requirementPassingScore := 85, failedRequirements := 3,
         evaluatedResources := 50 }] }

/-- The single zone of the scenario. -/
def usEastZone : Zone := { zoneName := "us-east", policies := [cisPolicy] }

/-- A policy whose only history entry writes the maximal date with a leading
zero, so no entry's `date` string equals `str(youngest_date)`. -/
def leadingZeroPolicy : Policy :=
  { name := "p", failedControls := 0, resourcePassingScore := 0,
    resourceViolationSummary := { highSeverity := 0, mediumSeverity := 0, lowSeverity := 0 },
    requirementsHistory :=
      [{ date := "0100", requirementPassingScore := 7, failedRequirements := 1,
         evaluatedResources := 2 }] }

/-! ## Retry loop lemmas -/

/-- When every attempt fails, the retry loop exhausts its fuel: with
`remaining` iterations left after `retries` attempts already made, it issues
exactly `remaining` more requests and ends in the `UnboundLocalError` raised
while formatting the final error log line. -/
theorem sysdig_request_loop_all_fail (env : Nat → Except String HttpResponse)
    (base_delay max_delay max_retries : Nat)
    (hfail : ∀ n, ∃ s, env n = Except.error s) :
    ∀ (remaining retries : Nat) (log : List LogEvent),
      (sysdig_request_loop env base_delay max_delay max_retries retries remaining log).attempts
          = retries + remaining ∧
        (sysdig_request_loop env base_delay max_delay max_retries retries remaining log).result
          = Except.error (CollectError.unboundLocalError "e") := by
  intro remaining
  induction remaining with
  | zero => intro retries log; simp [sysdig_request_loop]
  | succ rem ih =>
    intro retries log
    obtain ⟨s, hs⟩ := hfail retries
    simp only [sysdig_request_loop, hs]
    refine ⟨?_, (ih (retries + 1) _).2⟩
    rw [(ih (retries + 1) _).1]
    omega

/-- Claim C3: if every attempted request fails transiently, `sysdig_request`
performs exactly `max_retries + 1` request attempts and never more.  However
it does not return the synthetic 503: after the loop, evaluating the
f-string `f"Error making request to {url}: {e}"` raises `UnboundLocalError`
because the `except ... as e` clause unbinds `e` at the end of each handler,
so the assignments of `status_code = 503` and the diagnostic body on src
lines 242-244 are dead code.  The claim's "returns a terminal failure ...
instead of raising" is therefore wrong on the code: the function raises. -/
theorem sysdig_request_exhausted_retries (env : Nat → Except String HttpResponse)
    (max_retries base_delay max_delay : Nat)
    (hfail : ∀ n, ∃ s, env n = Except.error s) :
    (sysdig_request env max_retries base_delay max_delay).attempts = max_retries + 1 ∧
      (sysdig_request env max_retries base_delay max_delay).result =
        Except.error (CollectError.unboundLocalError "e") := by
  have h := sysdig_request_loop_all_fail env base_delay max_delay max_retries hfail
    (max_retries + 1) 0 []
  simpa [sysdig_request] using h

/-- Witness for C3 at a concrete all-failing environment with the default
parameters `max_retries=5, base_delay=5, max_delay=60`: six attempts, then
the uncaught `UnboundLocalError`. -/
theorem sysdig_request_exhausted_retries_witness :
    (sysdig_request (fun _ => Except.error "connection refused") 5 5 60).attempts = 5 + 1 ∧
      (sysdig_request (fun _ => Except.error "connection refused") 5 5 60).result =
        Except.error (CollectError.unboundLocalError "e") :=
  sysdig_request_exhausted_retries (fun _ => Except.error "connection refused") 5 5 60
    (fun _ => ⟨"connection refused", rfl⟩)

/-- Claim C4: with `max_retries=5, base_delay=5, max_delay=60`, a run of four
consecutive transient failures (arbitrary exceptions `s₀..s₃`) followed by a
success returns the successful response exactly once after five attempts,
with one retry-warning log line (`warnRetrySleeping`) per failed attempt —
four in total — and sleeps of 5, 10, 20 and 40 seconds, each delay being
`min(base_delay * 2 ^ attempt, max_delay)` with the attempt counted from
zero. -/
theorem sysdig_request_four_failures_then_success (s₀ s₁ s₂ s₃ : String) (r : HttpResponse) :
    sysdig_request
        (fun n =>
          if n == 0 then Except.error s₀
          else if n == 1 then Except.error s₁
          else if n == 2 then Except.error s₂
          else if n == 3 then Except.error s₃
          else Except.ok r) 5 5 60 =
      { log := [LogEvent.warnErrorRetrying 5, LogEvent.warnRetrySleeping 0 5, LogEvent.sleep 5,
                LogEvent.warnErrorRetrying 10, LogEvent.warnRetrySleeping 1 10, LogEvent.sleep 10,
                LogEvent.warnErrorRetrying 20, LogEvent.warnRetrySleeping 2 20, LogEvent.sleep 20,
                LogEvent.warnErrorRetrying 40, LogEvent.warnRetrySleeping 3 40, LogEvent.sleep 40],
        attempts := 5,
        result := Except.ok r } := rfl

/-- Claim C6 (evidence of the code bug): on a terminal fetch failure the
error does raise past the scrape cycle boundary.  With every attempt failing,
`collect` propagates the `UnboundLocalError` escaping `sysdig_request`
instead of yielding gauge families; the exposition handler therefore sees an
exception for this scrape.  (Even without that slip, the intended synthetic
503 body `Service is unavailable after retries.` is not JSON, so the
unconditional `.json()` on src line 99 would raise as well.) -/
theorem collect_terminal_fetch_failure_propagates :
    collect (fun _ => Except.error "connection refused") (fun _ => Option.none) 0 86400 =
      Except.error (CollectError.unboundLocalError "e") := rfl

/-- Claim C7: the document with one zone "us-east", one policy
"CIS-Benchmark" with history entries dated "100" and "200" (the "200" entry
scoring 85), projected at `now = 250` with `thresholdSeconds = 3600`, emits
the passing-requirements series labeled `(us-east, CIS-Benchmark)` with
value 85 (the family carries the source's full name
`sysdig_posture_passing_requirements`), and one sample for each of the other
seven families. -/
theorem collect_scenario_us_east :
    collectFromData 250 3600 [usEastZone] =
      Except.ok
        [{ name := "sysdig_posture_passing_requirements",
           documentation := "Number of passing requirements",
           labels := ["zone", "policy"],
           samples := [{ labelValues := ["us-east", "CIS-Benchmark"], value := 85 }] },
         { name := "sysdig_posture_failed_requirements",
           documentation := "Number of failed requirements",
           labels := ["zone", "policy"],
           samples := [{ labelValues := ["us-east", "CIS-Benchmark"], value := 3 }] },
         { name := "sysdig_posture_evaluated_resources",
           documentation := "Number of evaluated resources",
           labels := ["zone", "policy"],
           samples := [{ labelValues := ["us-east", "CIS-Benchmark"], value := 50 }] },
         { name := "sysdig_posture_failed_controls",
           documentation := "Number of failed controls",
           labels := ["zone", "policy"],
           samples := [{ labelValues := ["us-east", "CIS-Benchmark"], value := 2 }] },
         { name := "sysdig_posture_passing_resources",
           documentation := "Number of passing resources",
           labels := ["zone", "policy"],
           samples := [{ labelValues := ["us-east", "CIS-Benchmark"], value := 90 }] },
         { name := "sysdig_posture_high_severity_violations_resource",
           documentation := "Number of high severity resource violations",
           labels := ["zone", "policy"],
           samples := [{ labelValues := ["us-east", "CIS-Benchmark"], value := 1 }] },
         { name := "sysdig_posture_medium_severity_violations_resource",
           documentation := "Number of medium severity resource violations",
           labels := ["zone", "policy"],
           samples := [{ labelValues := ["us-east", "CIS-Benchmark"], value := 2 }] },
         { name := "sysdig_posture_low_severity_violations_resource",
           documentation := "Number of low severity resource violations",
           labels := ["zone", "policy"],
           samples := [{ labelValues := ["us-east", "CIS-Benchmark"], value := 3 }] }] := by decide

/-- Claim C9: projecting the same immutable document with the same `now`
and threshold twice yields identical series sets — same families, labels and
values.  The embedding makes the reason visible: the projection is a pure
function of `(document, now, threshold)`, and the gauge families are
constructed afresh inside every `collect` call (src lines 107-153), so no
sample state survives from one scrape to the next. -/
theorem collectFromData_deterministic (current_timestamp timeframe_seconds : Int)
    (zones : List Zone) :
    collectFromData current_timestamp timeframe_seconds zones =
      collectFromData current_timestamp timeframe_seconds zones := rfl

/-- Claim C10: the current-requirement scan compares `date` strings against
the canonical decimal string of the maximal integer date.  For a fresh policy
none of whose entries writes that maximum canonically (e.g. only "0100" for
maximum 100), the scan leaves `youngest_data = None` and the fresh branch
fails on the first field access (`requirementPassingScore`) with a
`TypeError` instead of reporting any entry. -/
theorem processPolicy_noncanonical_max_date_fails
    (current_timestamp timeframe_seconds : Int) (zoneName : String) (p : Policy)
    (gs : Gauges) (y : Int)
    (hy : get_youngest_date p.requirementsHistory = Except.ok y)
    (hfresh : current_timestamp - y ≤ timeframe_seconds)
    (hnc : ∀ r ∈ p.requirementsHistory, r.date ≠ toString y) :
    processPolicy current_timestamp timeframe_seconds zoneName p gs =
      Except.error (CollectError.noneFieldAccess "requirementPassingScore") := by
  have hfind : findYoungestData p.requirementsHistory y = Option.none := by
    apply List.find?_eq_none.mpr
    intro r hr
    simpa using hnc r hr
  simp [processPolicy, hy, hfind, hfresh]

/-- Witness for C10: the single-entry history `["0100"]` has maximal integer
date 100, the policy is fresh at `now = 100` with threshold 0, and the
projection of that policy fails on the `None` field access. -/
theorem processPolicy_noncanonical_max_date_fails_witness :
    processPolicy 100 0 "z" leadingZeroPolicy initGauges =
      Except.error (CollectError.noneFieldAccess "requirementPassingScore") :=
  processPolicy_noncanonical_max_date_fails 100 0 "z" leadingZeroPolicy initGauges 100
    (by decide) (by decide) (by decide)

/-- A policy with no requirement history at all. -/
def emptyHistoryPolicy : Policy :=
  { name := "empty", failedControls := 0, resourcePassingScore := 0,
    resourceViolationSummary := { highSeverity := 0, mediumSeverity := 0, lowSeverity := 0 },
    requirementsHistory := [] }

/-- A zone holding a healthy policy followed by one with empty history. -/
def mixedZone : Zone := { zoneName := "z", policies := [cisPolicy, emptyHistoryPolicy] }

/-- A policy whose `requirementsHistory` is empty always aborts its own
processing: `max([])` on src line 81 raises `ValueError` before the
freshness test is even reached. -/
theorem processPolicy_empty_history (current_timestamp timeframe_seconds : Int)
    (zoneName : String) (p : Policy) (gs : Gauges)
    (hp : p.requirementsHistory = []) :
    processPolicy current_timestamp timeframe_seconds zoneName p gs =
      Except.error CollectError.emptyHistoryMax := by
  simp [processPolicy, get_youngest_date, hp, parseDates, listMax]

/-- If any policy of the list has empty history, the policy loop ends in an
uncaught exception (possibly an earlier policy's exception). -/
theorem processPolicies_empty_history_aborts (ts tf : Int) (zn : String) :
    ∀ (ps : List Policy) (gs : Gauges), (∃ p ∈ ps, p.requirementsHistory = []) →
      ∃ e, processPolicies ts tf zn ps gs = Except.error e := by
  intro ps
  induction ps with
  | nil => intro gs h; simp at h
  | cons q qs ih =>
    intro gs h
    cases hq : processPolicy ts tf zn q gs with
    | error e => exact ⟨e, by simp [processPolicies, hq]⟩
    | ok gs₁ =>
      obtain ⟨p, hp, hempty⟩ := h
      rcases List.mem_cons.mp hp with rfl | hmem
      · rw [processPolicy_empty_history ts tf zn p gs hempty] at hq
        simp at hq
      · obtain ⟨e, he⟩ := ih gs₁ ⟨p, hmem, hempty⟩
        exact ⟨e, by simp [processPolicies, hq, he]⟩

/-- Zone-level version of the previous lemma. -/
theorem processZones_empty_history_aborts (ts tf : Int) :
    ∀ (zs : List Zone) (gs : Gauges),
      (∃ z ∈ zs, ∃ p ∈ z.policies, p.requirementsHistory = []) →
      ∃ e, processZones ts tf zs gs = Except.error e := by
  intro zs
  induction zs with
  | nil => intro gs h; simp at h
  | cons z₀ zt ih =>
    intro gs h
    cases hz : processPolicies ts tf z₀.zoneName z₀.policies gs with
    | error e => exact ⟨e, by simp [processZones, hz]⟩
    | ok gs₁ =>
      obtain ⟨z, hzmem, p, hp, hempty⟩ := h
      rcases List.mem_cons.mp hzmem with rfl | hmem
      · obtain ⟨e, he⟩ := processPolicies_empty_history_aborts ts tf z.zoneName z.policies gs
          ⟨p, hp, hempty⟩
        rw [he] at hz
        simp at hz
      · obtain ⟨e, he⟩ := ih gs₁ ⟨z, hmem, p, hp, hempty⟩
        exact ⟨e, by simp [processZones, hz, he]⟩

/-- Claim C5 counterexample: in a document whose zone holds a healthy policy
followed by a policy with empty `requirementsHistory`, the projection does
not fail merely for the affected policy — `max([])` raises an uncaught
`ValueError`, the whole collection returns no family list, and the healthy
sibling policy is not reported either.  There is no `MalformedDocument`
handling anywhere in the code. -/
theorem collect_empty_history_counterexample :
    collectFromData 250 3600 [mixedZone] = Except.error CollectError.emptyHistoryMax := by
  decide

/-- Claim C5 (amended): if some policy in the document has an empty
`requirementsHistory`, the scrape's projection aborts with an uncaught
exception (the empty-`max` `ValueError`, or an earlier policy's exception),
so no gauge families are produced and no policy of the document is reported
in that scrape. -/
theorem collect_empty_history_aborts_scrape (current_timestamp timeframe_seconds : Int)
    (zones : List Zone)
    (h : ∃ z ∈ zones, ∃ p ∈ z.policies, p.requirementsHistory = []) :
    ∃ e, collectFromData current_timestamp timeframe_seconds zones = Except.error e := by
  obtain ⟨e, he⟩ := processZones_empty_history_aborts current_timestamp timeframe_seconds
    zones initGauges h
  exact ⟨e, by simp [collectFromData, he]⟩

/-- Witness for the amended C5 at the two-policy document. -/
theorem collect_empty_history_aborts_scrape_witness :
    ∃ e, collectFromData 250 3600 [mixedZone] = Except.error e :=
  collect_empty_history_aborts_scrape 250 3600 [mixedZone]
    ⟨mixedZone, by decide, emptyHistoryPolicy, by decide, rfl⟩

/-! ## Youngest-date lemmas -/

/-- `find?` returns the first match: the list splits around the hit, with the
predicate false on everything before it. -/
theorem find?_split {α : Type} (p : α → Bool) :
    ∀ (l : List α) (a : α), l.find? p = Option.some a →
      ∃ l₁ l₂, l = l₁ ++ a :: l₂ ∧ (∀ x ∈ l₁, p x = false) ∧ p a = true := by
  intro l
  induction l with
  | nil => intro a h; simp at h
  | cons b t ih =>
    intro a h
    cases hb : p b with
    | true =>
      rw [List.find?_cons_of_pos t hb] at h
      obtain rfl := Option.some.inj h
      exact ⟨[], t, rfl, by simp, hb⟩
    | false =>
      rw [List.find?_cons_of_neg t (by simp [hb])] at h
      obtain ⟨l₁, l₂, rfl, h₁, h₂⟩ := ih a h
      refine ⟨b :: l₁, l₂, rfl, ?_, h₂⟩
      intro x hx
      rcases List.mem_cons.mp hx with rfl | hx
      · exact hb
      · exact h₁ x hx

/-- The seed of a left `max` fold bounds nothing from above, but anything
below the seed is below the fold. -/
theorem le_foldl_max_init (x : Int) :
    ∀ (ds : List Int) (a : Int), x ≤ a → x ≤ ds.foldl max a := by
  intro ds
  induction ds with
  | nil => intro a h; simpa using h
  | cons d t ih =>
    intro a h
    exact ih (max a d) (le_trans h (le_max_left a d))

/-- Every value folded into a left `max` fold is bounded by the result. -/
theorem foldl_max_ge_mem (x : Int) :
    ∀ (ds : List Int) (a : Int), x = a ∨ x ∈ ds → x ≤ ds.foldl max a := by
  intro ds
  induction ds with
  | nil =>
    intro a h
    rcases h with rfl | h
    · simp
    · simp at h
  | cons d t ih =>
    intro a h
    show x ≤ t.foldl max (max a d)
    rcases h with rfl | h
    · exact le_foldl_max_init x t (max x d) (le_max_left x d)
    · rcases List.mem_cons.mp h with rfl | h
      · exact le_foldl_max_init x t (max a x) (le_max_right a x)
      · exact ih (max a d) (Or.inr h)

/-- A left `max` fold returns its seed or a list element. -/
theorem foldl_max_attained :
    ∀ (ds : List Int) (a : Int), ds.foldl max a = a ∨ ds.foldl max a ∈ ds := by
  intro ds
  induction ds with
  | nil => intro a; left; rfl
  | cons d t ih =>
    intro a
    rcases ih (max a d) with h | h
    · rcases max_choice a d with hm | hm
      · left
        show t.foldl max (max a d) = a
        rw [h, hm]
      · right
        show t.foldl max (max a d) ∈ d :: t
        rw [h, hm]
        exact List.mem_cons_self d t
    · right
      exact List.mem_cons_of_mem d h

/-- When the date comprehension succeeds, the produced list is exactly the
parses of the history entries, in both directions of membership. -/
theorem parseDates_ok_sound :
    ∀ (rhs : List Requirement) (ds : List Int), parseDates rhs = Except.ok ds →
      (∀ r ∈ rhs, ∃ d ∈ ds, pyInt? r.date = Option.some d) ∧
        (∀ d ∈ ds, ∃ r ∈ rhs, pyInt? r.date = Option.some d) := by
  intro rhs
  induction rhs with
  | nil =>
    intro ds h
    simp [parseDates] at h
    subst h
    simp
  | cons rh t ih =>
    intro ds h
    cases hd : pyInt? rh.date with
    | none => simp [parseDates, hd] at h
    | some d =>
      cases hpt : parseDates t with
      | error e => simp [parseDates, hd, hpt, Except.map] at h
      | ok ds' =>
        have hds : d :: ds' = ds := by
          simpa [parseDates, hd, hpt, Except.map] using h
        subst hds
        obtain ⟨ih1, ih2⟩ := ih ds' hpt
        constructor
        · intro r hr
          rcases List.mem_cons.mp hr with rfl | hr
          · exact ⟨d, List.mem_cons_self d ds', hd⟩
          · obtain ⟨d', hd', hpd⟩ := ih1 r hr
            exact ⟨d', List.mem_cons_of_mem d hd', hpd⟩
        · intro d' hd'
          rcases List.mem_cons.mp hd' with rfl | hd'
          · exact ⟨rh, List.mem_cons_self rh t, hd⟩
          · obtain ⟨r, hr, hpd⟩ := ih2 d' hd'
            exact ⟨r, List.mem_cons_of_mem rh hr, hpd⟩

/-- The youngest date is an upper bound on every entry's parsed date. -/
theorem get_youngest_date_ub (rhs : List Requirement) (y : Int)
    (h : get_youngest_date rhs = Except.ok y) :
    ∀ r ∈ rhs, ∀ d, pyInt? r.date = Option.some d → d ≤ y := by
  intro r hr d hd
  cases hp : parseDates rhs with
  | error e => simp [get_youngest_date, hp] at h
  | ok ds =>
    cases ds with
    | nil => simp [get_youngest_date, hp, listMax] at h
    | cons d₀ dt =>
      have hy : dt.foldl max d₀ = y := by
        simpa [get_youngest_date, hp, listMax] using h
      obtain ⟨d', hmem, hpd⟩ := (parseDates_ok_sound rhs (d₀ :: dt) hp).1 r hr
      rw [hd] at hpd
      obtain rfl := Option.some.inj hpd
      rw [← hy]
      rcases List.mem_cons.mp hmem with rfl | hmem
      · exact foldl_max_ge_mem _ dt _ (Or.inl rfl)
      · exact foldl_max_ge_mem _ dt _ (Or.inr hmem)

/-- The youngest date is attained by some entry of the history. -/
theorem get_youngest_date_attained (rhs : List Requirement) (y : Int)
    (h : get_youngest_date rhs = Except.ok y) :
    ∃ r ∈ rhs, pyInt? r.date = Option.some y := by
  cases hp : parseDates rhs with
  | error e => simp [get_youngest_date, hp] at h
  | ok ds =>
    cases ds with
    | nil => simp [get_youngest_date, hp, listMax] at h
    | cons d₀ dt =>
      have hy : dt.foldl max d₀ = y := by
        simpa [get_youngest_date, hp, listMax] using h
      have hmem : y ∈ d₀ :: dt := by
        rcases foldl_max_attained dt d₀ with hc | hc
        · rw [← hy, hc]
          exact List.mem_cons_self d₀ dt
        · rw [← hy]
          exact List.mem_cons_of_mem d₀ hc
      exact (parseDates_ok_sound rhs (d₀ :: dt) hp).2 y hmem

/-- Claim C1: whenever processing a policy adds a passing-requirements
sample, the sample's value is the `requirementPassingScore` of the history
entry the linear scan selected, and that entry is characterized exactly as
the claim states: the history splits as `l₁ ++ r :: l₂` where `r` is the
first entry carrying the date string `str(youngest_date)` (so on a tie of
that maximal date string the first entry in sequence order wins), the
youngest date bounds every entry's integer date from above and is attained
by some entry.  The sample is labeled `[zoneName, policyName]`. -/
theorem processPolicy_reports_max_date_entry
    (current_timestamp timeframe_seconds : Int) (zoneName : String) (p : Policy)
    (gs gs' : Gauges)
    (hok : processPolicy current_timestamp timeframe_seconds zoneName p gs = Except.ok gs')
    (hchanged : gs'.g_passing_requirements ≠ gs.g_passing_requirements) :
    ∃ y r l₁ l₂,
      get_youngest_date p.requirementsHistory = Except.ok y ∧
      p.requirementsHistory = l₁ ++ r :: l₂ ∧
      r.date = toString y ∧
      (∀ r' ∈ l₁, r'.date ≠ toString y) ∧
      (∀ r' ∈ p.requirementsHistory, ∀ d, pyInt? r'.date = Option.some d → d ≤ y) ∧
      (∃ rm ∈ p.requirementsHistory, pyInt? rm.date = Option.some y) ∧
      gs'.g_passing_requirements.samples =
        gs.g_passing_requirements.samples ++
          [{ labelValues := [zoneName, p.name], value := r.requirementPassingScore }] := by
  cases hy : get_youngest_date p.requirementsHistory with
  | error e => simp [processPolicy, hy] at hok
  | ok y =>
    cases hfind : findYoungestData p.requirementsHistory y with
    | none =>
      by_cases hfresh : current_timestamp - y ≤ timeframe_seconds
      · simp [processPolicy, hy, hfind, hfresh] at hok
      · have hgs : gs' = gs := by
          have := hok
          simp [processPolicy, hy, hfind, hfresh] at this
          exact this.symm
        exact absurd (by rw [hgs]) hchanged
    | some r =>
      by_cases hfresh : current_timestamp - y ≤ timeframe_seconds
      · have hgs' : gs' = addAllMetrics gs [zoneName, p.name]
            r.requirementPassingScore r.failedRequirements r.evaluatedResources
            p.failedControls p.resourcePassingScore
            p.resourceViolationSummary.highSeverity
            p.resourceViolationSummary.mediumSeverity
            p.resourceViolationSummary.lowSeverity := by
          have := hok
          simp [processPolicy, hy, hfind, hfresh] at this
          exact this.symm
        have hfind' : p.requirementsHistory.find? (fun q => q.date == toString y)
            = Option.some r := hfind
        obtain ⟨l₁, l₂, hsplit, hfalse, htrue⟩ := find?_split _ _ _ hfind'
        have hdate : r.date = toString y := by simpa using htrue
        refine ⟨y, r, l₁, l₂, rfl, hsplit, hdate, ?_,
          get_youngest_date_ub p.requirementsHistory y hy,
          get_youngest_date_attained p.requirementsHistory y hy, ?_⟩
        · intro r' hr'
          simpa using hfalse r' hr'
        · rw [hgs']
          rfl
      · have hgs : gs' = gs := by
          have := hok
          simp [processPolicy, hy, hfind, hfresh] at this
          exact this.symm
        exact absurd (by rw [hgs]) hchanged

/-- Witness for C1 at the two-entry scenario policy: the youngest date is
200, the scan selects the second entry, and the added sample carries its
score 85. -/
theorem processPolicy_reports_max_date_entry_witness :
    ∃ y r l₁ l₂,
      get_youngest_date cisPolicy.requirementsHistory = Except.ok y ∧
      cisPolicy.requirementsHistory = l₁ ++ r :: l₂ ∧
      r.date = toString y ∧
      (∀ r' ∈ l₁, r'.date ≠ toString y) ∧
      (∀ r' ∈ cisPolicy.requirementsHistory, ∀ d, pyInt? r'.date = Option.some d → d ≤ y) ∧
      (∃ rm ∈ cisPolicy.requirementsHistory, pyInt? rm.date = Option.some y) ∧
      (addAllMetrics initGauges ["us-east", "CIS-Benchmark"] 85 3 50 2 90 1 2 3).g_passing_requirements.samples =
        initGauges.g_passing_requirements.samples ++
          [{ labelValues := ["us-east", "CIS-Benchmark"], value := r.requirementPassingScore }] :=
  processPolicy_reports_max_date_entry 250 3600 "us-east" cisPolicy initGauges
    (addAllMetrics initGauges ["us-east", "CIS-Benchmark"] 85 3 50 2 90 1 2 3)
    (by decide) (by decide)

/-- Claim C2: for a zone/policy pair whose processing completes, the eight
gauge families each receive exactly one sample labeled
`[zoneName, policyName]` iff `now - youngestDate <= thresholdSeconds`, with
`thresholdSeconds = hours * 3600` (the `hours_threshold * 60 * 60` of
`Collector.__init__`); a pair failing the freshness test contributes no
sample to any family. -/
theorem processPolicy_emits_all_eight_iff_fresh
    (current_timestamp hours : Int) (zoneName : String) (p : Policy) (gs gs' : Gauges)
    (y : Int)
    (hy : get_youngest_date p.requirementsHistory = Except.ok y)
    (hok : processPolicy current_timestamp (Collector.timeframe_seconds hours) zoneName p gs
      = Except.ok gs') :
    (current_timestamp - y ≤ hours * 3600 →
      ∃ v₁ v₂ v₃ v₄ v₅ v₆ v₇ v₈,
        gs' = addAllMetrics gs [zoneName, p.name] v₁ v₂ v₃ v₄ v₅ v₆ v₇ v₈) ∧
    (hours * 3600 < current_timestamp - y → gs' = gs) := by
  have htf : Collector.timeframe_seconds hours = hours * 3600 := by
    unfold Collector.timeframe_seconds
    ring
  rw [htf] at hok
  cases hfind : findYoungestData p.requirementsHistory y with
  | none =>
    by_cases hfresh : current_timestamp - y ≤ hours * 3600
    · simp [processPolicy, hy, hfind, hfresh] at hok
    · constructor
      · intro hc
        exact absurd hc hfresh
      · intro _
        have := hok
        simp [processPolicy, hy, hfind, hfresh] at this
        exact this.symm
  | some r =>
    by_cases hfresh : current_timestamp - y ≤ hours * 3600
    · constructor
      · intro _
        refine ⟨r.requirementPassingScore, r.failedRequirements, r.evaluatedResources,
          p.failedControls, p.resourcePassingScore,
          p.resourceViolationSummary.highSeverity,
          p.resourceViolationSummary.mediumSeverity,
          p.resourceViolationSummary.lowSeverity, ?_⟩
        have := hok
        simp [processPolicy, hy, hfind, hfresh] at this
        exact this.symm
      · intro hc
        exact absurd hfresh (not_le.mpr hc)
    · constructor
      · intro hc
        exact absurd hc hfresh
      · intro _
        have := hok
        simp [processPolicy, hy, hfind, hfresh] at this
        exact this.symm

/-- Witness for C2 at the scenario pair with a one-hour threshold: the pair
is fresh (`250 - 200 <= 3600`), so all eight families gain the
`["us-east", "CIS-Benchmark"]` sample. -/
theorem processPolicy_emits_all_eight_iff_fresh_witness :
    ((250 : Int) - 200 ≤ 1 * 3600 →
      ∃ v₁ v₂ v₃ v₄ v₅ v₆ v₇ v₈,
        addAllMetrics initGauges ["us-east", "CIS-Benchmark"] 85 3 50 2 90 1 2 3 =
          addAllMetrics initGauges ["us-east", cisPolicy.name] v₁ v₂ v₃ v₄ v₅ v₆ v₇ v₈) ∧
    ((1 : Int) * 3600 < 250 - 200 →
      addAllMetrics initGauges ["us-east", "CIS-Benchmark"] 85 3 50 2 90 1 2 3 = initGauges) :=
  processPolicy_emits_all_eight_iff_fresh 250 1 "us-east" cisPolicy initGauges
    (addAllMetrics initGauges ["us-east", "CIS-Benchmark"] 85 3 50 2 90 1 2 3) 200
    (by decide) (by decide)

/-! ## Config-validation lemmas -/

/-- `validateKeys` stops at the first offending key of the section and
produces its message; it succeeds iff no key offends. -/
theorem validateKeys_eq (entries : List (String × PyValue)) (sect : String) :
    ∀ keys : List String,
      validateKeys entries sect keys =
        match keys.find? (entryOffends entries) with
        | Option.none => Except.ok ()
        | Option.some k => Except.error (entryMessage entries sect k) := by
  intro keys
  induction keys with
  | nil => simp [validateKeys]
  | cons k ks ih =>
    cases hl : lookup entries k with
    | none =>
      have ho : entryOffends entries k = true := by simp [entryOffends, hl]
      rw [List.find?_cons_of_pos ks ho]
      simp [validateKeys, hl, entryMessage]
    | some v =>
      cases ht : v.truthy with
      | false =>
        have ho : entryOffends entries k = true := by simp [entryOffends, hl, ht]
        rw [List.find?_cons_of_pos ks ho]
        simp [validateKeys, hl, ht, entryMessage]
      | true =>
        have ho : entryOffends entries k = false := by simp [entryOffends, hl, ht]
        rw [List.find?_cons_of_neg ks (by simp [ho])]
        simpa [validateKeys, hl, ht] using ih

/-- The dotted required keys of a section list, in checking order. -/
def sectionPairs : List (String × List String) → List (String × String)
  | [] => []
  | (sect, keys) :: rest => keys.map (fun k => (sect, k)) ++ sectionPairs rest

/-- `validateSections` stops at the first offending required key in checking
order — sections in order, keys in order within a section, a missing section
treated as its first key offending — and produces the corresponding message;
it succeeds iff no required key offends.  (The hypothesis excludes sections
with an empty key list, which do not occur in `required_keys`.) -/
theorem validateSections_eq (c : Config) :
    ∀ reqs : List (String × List String), (∀ sk ∈ reqs, sk.2 ≠ []) →
      validateSections c reqs =
        match (sectionPairs reqs).find? (fun pr => keyOffends c pr.1 pr.2) with
        | Option.none => Except.ok ()
        | Option.some pr => Except.error (offenderMessage c pr.1 pr.2) := by
  intro reqs
  induction reqs with
  | nil => intro _; simp [validateSections, sectionPairs]
  | cons sk rest ih =>
    intro hne
    obtain ⟨sect, keys⟩ := sk
    have hrest : ∀ sk ∈ rest, sk.2 ≠ [] :=
      fun sk hsk => hne sk (List.mem_cons_of_mem _ hsk)
    cases hc : lookup c sect with
    | none =>
      cases keys with
      | nil => exact absurd rfl (hne (sect, []) (List.mem_cons_self _ _))
      | cons k₀ kt =>
        have ho : keyOffends c sect k₀ = true := by simp [keyOffends, hc]
        have hfind : (sectionPairs ((sect, k₀ :: kt) :: rest)).find?
            (fun pr => keyOffends c pr.1 pr.2) = Option.some (sect, k₀) := by
          have : sectionPairs ((sect, k₀ :: kt) :: rest) =
              (sect, k₀) :: (kt.map (fun k => (sect, k)) ++ sectionPairs rest) := by
            simp [sectionPairs]
          rw [this]
          exact List.find?_cons_of_pos _ (by simpa using ho)
        rw [hfind]
        simp [validateSections, hc, offenderMessage]
    | some entries =>
      have hko : ∀ k, keyOffends c sect k = entryOffends entries k :=
        fun k => by simp [keyOffends, hc]
      have hpairs : sectionPairs ((sect, keys) :: rest) =
          keys.map (fun k => (sect, k)) ++ sectionPairs rest := by
        simp [sectionPairs]
      cases hk : keys.find? (entryOffends entries) with
      | none =>
        have hmapnone : (keys.map (fun k => (sect, k))).find?
            (fun pr => keyOffends c pr.1 pr.2) = Option.none := by
          apply List.find?_eq_none.mpr
          intro pr hpr
          obtain ⟨k, hkmem, rfl⟩ := List.mem_map.mp hpr
          have := List.find?_eq_none.mp hk k hkmem
          simp only [hko]
          simpa using this
        rw [hpairs, List.find?_append, hmapnone]
        have hlhs : validateSections c ((sect, keys) :: rest) = validateSections c rest := by
          simp [validateSections, hc, validateKeys_eq, hk]
        rw [hlhs, ih hrest]
        rfl
      | some k =>
        have hmapsome : (keys.map (fun k => (sect, k))).find?
            (fun pr => keyOffends c pr.1 pr.2) = Option.some (sect, k) := by
          rw [List.find?_map]
          have : keys.find? ((fun pr => keyOffends c pr.1 pr.2) ∘ (fun k => (sect, k)))
              = Option.some k := by
            have hfun : ((fun pr => keyOffends c pr.1 pr.2) ∘ (fun k => (sect, k)))
                = entryOffends entries := by
              funext k
              simp [Function.comp, hko]
            rw [hfun, hk]
          rw [this]
          rfl
        rw [hpairs, List.find?_append, hmapsome]
        simp [validateSections, hc, validateKeys_eq, hk, offenderMessage]

/-- Claim C8: `validate_config` succeeds iff none of the six required keys
(`settings.logLevel`, `settings.httpPort`, `config.apiToken`,
`config.regionURL`, `config.postureAPIEndpoint`,
`config.noDataThresholdHours`) is missing or Python-falsy — note that
Python's truthiness test means `0`, `False` and `None` also count as
"empty" — and on failure the `ValueError` corresponds to the first offending
key in checking order, its message naming that key (or its section, when the
whole section is absent). -/
theorem validate_config_reports_first_offending_key (c : Config) :
    (validate_config c = Except.ok () ↔
      ∀ pr ∈ requiredPairs, keyOffends c pr.1 pr.2 = false) ∧
    (∀ sect k,
      requiredPairs.find? (fun pr => keyOffends c pr.1 pr.2) = Option.some (sect, k) →
      validate_config c = Except.error (offenderMessage c sect k)) := by
  have hpairs : sectionPairs required_keys = requiredPairs := rfl
  have hne : ∀ sk ∈ required_keys, sk.2 ≠ [] := by decide
  have hv : validate_config c = validateSections c required_keys := rfl
  have h := validateSections_eq c required_keys hne
  rw [hpairs] at h
  constructor
  · constructor
    · intro hok
      cases hf : requiredPairs.find? (fun pr => keyOffends c pr.1 pr.2) with
      | none =>
        intro pr hpr
        have := List.find?_eq_none.mp hf pr hpr
        simpa using this
      | some pr =>
        rw [hv, h, hf] at hok
        simp at hok
    · intro hall
      have hf : requiredPairs.find? (fun pr => keyOffends c pr.1 pr.2) = Option.none :=
        List.find?_eq_none.mpr (fun pr hpr => by simp [hall pr hpr])
      rw [hv, h, hf]
  · intro sect k hf
    rw [hv, h, hf]

/-- A config whose first offense in checking order is the missing
`settings.httpPort`. -/
def missingPortConfig : Config :=
  [("settings", [("logLevel", PyValue.str "INFO")]),
   ("config", [("apiToken", PyValue.str "token"), ("regionURL", PyValue.str "https://api"),
               ("postureAPIEndpoint", PyValue.str "/cspm"),
               ("noDataThresholdHours", PyValue.int 24)])]

/-- Witness for C8: on the config missing `settings.httpPort`, validation
raises the message naming exactly that key. -/
theorem validate_config_reports_first_offending_key_witness :
    validate_config missingPortConfig = Except.error "Missing key in settings: httpPort" :=
  (validate_config_reports_first_offending_key missingPortConfig).2 "settings" "httpPort"
    (by decide)

end PromPosture
